import Mathlib

/-!
Verification development for the Account CRUD REST service.

The error-handling layer is embedded directly from
`service/common/error_handlers.py`.  The route handlers, the entity
mapper and the security middleware are not present under `src/` (only
their tests and the error handlers are), so those definitions are
modelled from the specification, as marked in their doc comments.
-/

namespace AccountService

/-- Severity of a log entry emitted through `app.logger`. -/
inductive LogLevel where
  | warning
  | error
deriving Repr, DecidableEq

/-- The JSON body produced by `jsonify(status=..., error=..., message=...)`
in `handle_error`: an object with exactly the fields `status`, `error`
and `message`. -/
structure ErrorEnvelope where
  status : Nat
  error : String
  message : String
deriving Repr, DecidableEq

/-- Result of an error handler: the JSON envelope, the HTTP status code
set on the response, and the log entries emitted (in order). -/
structure ErrorResult where
  envelope : ErrorEnvelope
  status_code : Nat
  log : List (LogLevel × String)
deriving Repr, DecidableEq

/-- Embeds `handle_error` from `service/common/error_handlers.py`:
logs the message at warning severity, builds the `{status, error, message}`
envelope and sets the response status code to `status_code`. -/
def handle_error (status_code : Nat) (error_name : String) (message : String) :
    ErrorResult :=
  { envelope := { status := status_code, error := error_name, message := message }
    status_code := status_code
    log := [(LogLevel.warning, message)] }

/-- Embeds `handle_data_validation_error`: a `DataValidationError` whose
string rendering is `msg` maps to 400 "Bad Request". -/
def handle_data_validation_error (msg : String) : ErrorResult :=
  handle_error 400 "Bad Request" msg

/-- Embeds `handle_bad_request`.  The optional argument models the Python
`error=None` default: `message = str(error) if error else "Bad Request"`. -/
def handle_bad_request (err : Option String) : ErrorResult :=
  handle_error 400 "Bad Request" (err.getD "Bad Request")

/-- Embeds `handle_not_found`. -/
def handle_not_found (err : Option String) : ErrorResult :=
  handle_error 404 "Not Found" (err.getD "Not Found")

/-- Embeds `handle_method_not_supported`. -/
def handle_method_not_supported (err : Option String) : ErrorResult :=
  handle_error 405 "Method not Allowed" (err.getD "Method not Allowed")

/-- Embeds `handle_media_type_not_supported`. -/
def handle_media_type_not_supported (err : Option String) : ErrorResult :=
  handle_error 415 "Unsupported media type" (err.getD "Unsupported media type")

/-- Embeds `handle_internal_server_error`: the message is additionally
logged at error severity (via `app.logger.error`) before `handle_error`
logs it at warning severity. -/
def handle_internal_server_error (err : Option String) : ErrorResult :=
  let message := err.getD "Internal Server Error"
  let r := handle_error 500 "Internal Server Error" message
  { r with log := (LogLevel.error, message) :: r.log }

/-- A persisted Account row (spec §3): identifier and `date_joined` are
server-assigned; the other four fields come from the wire data.  The
date is kept as its ISO calendar-date string rendering. -/
structure Account where
  id : Nat
  name : String
  email : String
  address : String
  phone_number : String
  date_joined : String
deriving Repr, DecidableEq

/-- Wire-format mapping for create/update bodies: each Account field is
either present with a value or absent.  Unknown extra fields are ignored
by deserialization (spec §4.1), so they are not modelled. -/
structure WireData where
  name : Option String
  email : Option String
  address : Option String
  phone_number : Option String
  date_joined : Option String
deriving Repr, DecidableEq

/-- The fields extracted from a wire body by successful deserialization. -/
structure AccountFields where
  name : String
  email : String
  address : String
  phone_number : String
  date_joined : Option String
deriving Repr, DecidableEq

/-- Modelled from the spec: `Deserialize` of the Account Entity Mapper
(spec §4.1, §3) — `service/models.py` is not under `src/`.  Fails with a
validation error when any required field (name, email, address,
phone_number) is missing; `date_joined` is taken from the wire data when
present (per `test_create_account`, which round-trips the submitted
date) and left for the server to assign otherwise (spec §3). -/
def deserialize (w : WireData) : Except String AccountFields :=
  match w.name, w.email, w.address, w.phone_number with
  | some n, some e, some a, some p =>
      Except.ok { name := n, email := e, address := a, phone_number := p,
                  date_joined := w.date_joined }
  | _, _, _, _ => Except.error "Invalid Account: missing required field"

/-- The Account Store (spec §2, §3): the persisted rows together with
the next server-assigned identifier. -/
structure Store where
  accounts : List Account
  nextId : Nat
deriving Repr, DecidableEq

/-- Store lookup by identifier. -/
def Store.find (s : Store) (aid : Nat) : Option Account :=
  s.accounts.find? (fun a => a.id == aid)

/-- Body of an HTTP response from the service. -/
inductive Body where
  | account (a : Account)
  | accountList (l : List Account)
  | envelope (e : ErrorEnvelope)
  | empty
deriving Repr, DecidableEq

/-- An HTTP response: status code, JSON body, optional Location header. -/
structure HttpResponse where
  status_code : Nat
  body : Body
  location : Option String
deriving Repr, DecidableEq

/-- Wraps an error-handler result as an HTTP response. -/
def errorResponse (r : ErrorResult) : HttpResponse :=
  { status_code := r.status_code, body := Body.envelope r.envelope, location := none }

/-- The read endpoint path for an identifier, as placed in the Location
header of a create response. -/
def accountLocation (aid : Nat) : String :=
  "/accounts/" ++ toString aid

/-- Modelled from the spec: the Create route handler (spec §4.2) —
`service/routes.py` is not under `src/`.  A content type other than
`application/json` fails with UnsupportedMediaType; otherwise the body
is deserialized (validation failure maps through the
DataValidationError handler to 400); on success a new Account is
persisted with a server-assigned identifier, `date_joined` defaulting
to the server date `today` when absent from the body, and the response
is 201 with the created representation and a Location header. -/
def create (s : Store) (today : String) (content_type : String) (w : WireData) :
    HttpResponse × Store :=
  if content_type = "application/json" then
    match deserialize w with
    | Except.error msg => (errorResponse (handle_data_validation_error msg), s)
    | Except.ok f =>
        let acc : Account :=
          { id := s.nextId, name := f.name, email := f.email, address := f.address,
            phone_number := f.phone_number, date_joined := f.date_joined.getD today }
        ({ status_code := 201, body := Body.account acc,
           location := some (accountLocation acc.id) },
         { accounts := s.accounts ++ [acc], nextId := s.nextId + 1 })
  else
    (errorResponse (handle_media_type_not_supported
      (some "Content-Type must be application/json")), s)

/-- Modelled from the spec: the Read route handler (spec §4.2) —
`service/routes.py` is not under `src/`.  Absent identifier fails with
NotFound (404); otherwise 200 with the representation. -/
def read (s : Store) (aid : Nat) : HttpResponse :=
  match s.find aid with
  | some a => { status_code := 200, body := Body.account a, location := none }
  | none => errorResponse (handle_not_found
      (some ("Account with id [" ++ toString aid ++ "] could not be found.")))

/-- Modelled from the spec: the Update route handler (spec §4.2, §3) —
`service/routes.py` is not under `src/`.  Absent identifier fails with
NotFound; the body is validated identically to Create (an empty or
field-incomplete body fails with 400); on success every mutable field
is overwritten wholesale from the body while identifier and
`date_joined` never change, and the updated representation is returned
with 200. -/
def update (s : Store) (aid : Nat) (w : WireData) : HttpResponse × Store :=
  match s.find aid with
  | none =>
      (errorResponse (handle_not_found
        (some ("Account with id [" ++ toString aid ++ "] could not be found."))), s)
  | some a =>
      match deserialize w with
      | Except.error msg => (errorResponse (handle_data_validation_error msg), s)
      | Except.ok f =>
          let a' : Account :=
            { a with name := f.name, email := f.email, address := f.address,
                     phone_number := f.phone_number }
          ({ status_code := 200, body := Body.account a', location := none },
           { s with accounts := s.accounts.map (fun b => if b.id == aid then a' else b) })

/-- Modelled from the spec: the Delete route handler (spec §4.2) —
`service/routes.py` is not under `src/`.  Removes the Account when it
exists and returns 204 regardless of prior existence. -/
def delete (s : Store) (aid : Nat) : HttpResponse × Store :=
  ({ status_code := 204, body := Body.empty, location := none },
   { s with accounts := s.accounts.filter (fun a => a.id != aid) })

/-- The wire body with every field absent: the empty update body. -/
def emptyWire : WireData :=
  { name := none, email := none, address := none, phone_number := none,
    date_joined := none }

/-- Modelled from the spec: the four fixed security headers the Security
Middleware sets on every outgoing response (spec §4.4) — the Talisman
configuration in `service/__init__.py` is not under `src/`. -/
def securityHeaders : List (String × String) :=
  [("X-Frame-Options", "SAMEORIGIN"),
   ("X-Content-Type-Options", "nosniff"),
   ("Content-Security-Policy", "default-src \x27self\x27; object-src \x27none\x27"),
   ("Referrer-Policy", "strict-origin-when-cross-origin")]

/-- Modelled from the spec: the Security Middleware applied to an
outgoing response, unconditionally setting the four fixed headers on
top of whatever headers the response already carries (spec §4.4). -/
def applySecurityHeaders (hs : List (String × String)) : List (String × String) :=
  securityHeaders ++ hs

/-- Deleting every row with a given identifier leaves nothing for a
subsequent lookup of that identifier to find. -/
lemma find_filter_ne (l : List AccountService.Account) (aid : Nat) :
    (l.filter (fun a => a.id != aid)).find? (fun a => a.id == aid) = none := by
  rw [List.find?_eq_none]
  intro x hx
  rcases List.mem_filter.mp hx with ⟨-, hpx⟩
  simp only [bne_iff_ne, ne_eq] at hpx
  simp [hpx]

/-- Appending a row whose identifier is fresh for the list makes lookup
of that identifier find exactly the appended row. -/
lemma find_append_fresh (l : List AccountService.Account)
    (acc : AccountService.Account) (h : ∀ a ∈ l, a.id ≠ acc.id) :
    (l ++ [acc]).find? (fun a => a.id == acc.id) = some acc := by
  induction l with
  | nil => simp [List.find?]
  | cons b t ih =>
      have hb : b.id ≠ acc.id := h b (List.mem_cons_self b t)
      have ht : ∀ a ∈ t, a.id ≠ acc.id := fun a ha => h a (List.mem_cons_of_mem b ha)
      have hbeq : (b.id == acc.id) = false := by simp [hb]
      simp [List.find?, hbeq, ih ht]

/-- Replacing, in place, every row carrying a given identifier makes
lookup of that identifier find the replacement, provided some row
carried the identifier and the replacement keeps it. -/
lemma find_map_replace (l : List AccountService.Account) (aid : Nat)
    (a a' : AccountService.Account)
    (hfind : l.find? (fun b => b.id == aid) = some a) (hid : a'.id = aid) :
    (l.map (fun b => if b.id == aid then a' else b)).find? (fun b => b.id == aid)
      = some a' := by
  induction l with
  | nil => simp [List.find?] at hfind
  | cons b t ih =>
      by_cases hb : b.id = aid
      · simp [List.find?, hb, hid]
      · simp only [List.find?, hb] at hfind
        simp only [List.map, List.find?]
        have hbeq : (b.id == aid) = false := by simp [hb]
        rw [if_neg (by simpa using hb)]
        simp only [hbeq, List.find?] at hfind ⊢
        exact ih (by simpa [List.find?, hbeq] using hfind)

/-- C2: every failure converted by the error handler yields a JSON body
that is an envelope with exactly the fields status (an integer), error
(a string label) and message (a string) — the `ErrorEnvelope` type —
and the HTTP status code set on the response equals the envelope's
status field, for `handle_error` itself and for each registered
handler. -/
theorem error_envelope_uniform (sc : Nat) (en m : String) (e : Option String) :
    (AccountService.handle_error sc en m).envelope
        = { status := sc, error := en, message := m } ∧
    (AccountService.handle_error sc en m).status_code
        = (AccountService.handle_error sc en m).envelope.status ∧
    (AccountService.handle_data_validation_error m).status_code
        = (AccountService.handle_data_validation_error m).envelope.status ∧
    (AccountService.handle_bad_request e).status_code
        = (AccountService.handle_bad_request e).envelope.status ∧
    (AccountService.handle_not_found e).status_code
        = (AccountService.handle_not_found e).envelope.status ∧
    (AccountService.handle_method_not_supported e).status_code
        = (AccountService.handle_method_not_supported e).envelope.status ∧
    (AccountService.handle_media_type_not_supported e).status_code
        = (AccountService.handle_media_type_not_supported e).envelope.status ∧
    (AccountService.handle_internal_server_error e).status_code
        = (AccountService.handle_internal_server_error e).envelope.status :=
  ⟨rfl, rfl, rfl, rfl, rfl, rfl, rfl, rfl⟩

/-- C3: each recognized failure condition maps to exactly the
status/label pair of the table: validation failure (DataValidationError
and HTTP 400) to 400 "Bad Request", not found to 404 "Not Found",
method not allowed to 405 "Method not Allowed", wrong content type to
415 "Unsupported media type", and internal failure to 500 "Internal
Server Error", whatever the underlying error. -/
theorem handlers_match_status_table (m : String) (e : Option String) :
    ((AccountService.handle_data_validation_error m).envelope.status = 400 ∧
     (AccountService.handle_data_validation_error m).envelope.error = "Bad Request") ∧
    ((AccountService.handle_bad_request e).envelope.status = 400 ∧
     (AccountService.handle_bad_request e).envelope.error = "Bad Request") ∧
    ((AccountService.handle_not_found e).envelope.status = 404 ∧
     (AccountService.handle_not_found e).envelope.error = "Not Found") ∧
    ((AccountService.handle_method_not_supported e).envelope.status = 405 ∧
     (AccountService.handle_method_not_supported e).envelope.error = "Method not Allowed") ∧
    ((AccountService.handle_media_type_not_supported e).envelope.status = 415 ∧
     (AccountService.handle_media_type_not_supported e).envelope.error
        = "Unsupported media type") ∧
    ((AccountService.handle_internal_server_error e).envelope.status = 500 ∧
     (AccountService.handle_internal_server_error e).envelope.error
        = "Internal Server Error") :=
  ⟨⟨rfl, rfl⟩, ⟨rfl, rfl⟩, ⟨rfl, rfl⟩, ⟨rfl, rfl⟩, ⟨rfl, rfl⟩, ⟨rfl, rfl⟩⟩

/-- C4 counterexample: when the 500 handler receives an error object
whose string rendering carries internal detail, that very detail — not
a generic message — is placed in the message field returned to the
caller, contradicting the claim that callers only ever see a generic
message. -/
theorem internal_error_detail_reaches_caller :
    (AccountService.handle_internal_server_error
        (some "disk failure at block 42")).envelope.message
      = "disk failure at block 42" ∧
    "disk failure at block 42" ≠ "Internal Server Error" :=
  ⟨rfl, by decide⟩

/-- C4 amended: the 500 handler logs the failure's rendering at error
severity (higher than the warning used for other handlers), and the
message field returned to the caller equals that same rendering when an
error object is present, falling back to the generic label "Internal
Server Error" only when no error object is given. -/
theorem internal_error_logged_and_echoed (e : Option String) :
    (AccountService.LogLevel.error, e.getD "Internal Server Error")
        ∈ (AccountService.handle_internal_server_error e).log ∧
    (AccountService.handle_internal_server_error e).envelope.message
        = e.getD "Internal Server Error" :=
  ⟨List.mem_cons_self _ _, rfl⟩

/-- C10: each registered HTTP error handler (400, 404, 405, 415, 500),
invoked without an underlying error object, defaults the envelope's
message field to exactly the condition's label string; with an error
object present, the message is that object's string rendering. -/
theorem handlers_default_message_to_label (s : String) :
    ((AccountService.handle_bad_request none).envelope.message = "Bad Request" ∧
     (AccountService.handle_bad_request (some s)).envelope.message = s) ∧
    ((AccountService.handle_not_found none).envelope.message = "Not Found" ∧
     (AccountService.handle_not_found (some s)).envelope.message = s) ∧
    ((AccountService.handle_method_not_supported none).envelope.message
        = "Method not Allowed" ∧
     (AccountService.handle_method_not_supported (some s)).envelope.message = s) ∧
    ((AccountService.handle_media_type_not_supported none).envelope.message
        = "Unsupported media type" ∧
     (AccountService.handle_media_type_not_supported (some s)).envelope.message = s) ∧
    ((AccountService.handle_internal_server_error none).envelope.message
        = "Internal Server Error" ∧
     (AccountService.handle_internal_server_error (some s)).envelope.message = s) :=
  ⟨⟨rfl, rfl⟩, ⟨rfl, rfl⟩, ⟨rfl, rfl⟩, ⟨rfl, rfl⟩, ⟨rfl, rfl⟩⟩

/-- C7: whatever the store and whether or not an Account carries the
identifier, DELETE returns 204, and a GET of that identifier performed
immediately on the post-delete store returns 404. -/
theorem delete_idempotent_then_read_404 (s : AccountService.Store) (aid : Nat) :
    (AccountService.delete s aid).1.status_code = 204 ∧
    (AccountService.read (AccountService.delete s aid).2 aid).status_code = 404 := by
  constructor
  · rfl
  · have h : ((AccountService.delete s aid).2).find aid = none :=
      find_filter_ne s.accounts aid
    unfold AccountService.read
    rw [h]
    rfl

/-- C8: a create request whose content type is not application/json is
answered with 415 and the "Unsupported media type" envelope, whatever
the body, and the store is left unchanged (no Account is created). -/
theorem create_wrong_media_type (s : AccountService.Store) (today ct : String)
    (w : AccountService.WireData) (hct : ct ≠ "application/json") :
    (AccountService.create s today ct w).1.status_code = 415 ∧
    (AccountService.create s today ct w).1.body = AccountService.Body.envelope
      { status := 415, error := "Unsupported media type",
        message := "Content-Type must be application/json" } ∧
    (AccountService.create s today ct w).2 = s := by
  unfold AccountService.create
  rw [if_neg hct]
  exact ⟨rfl, rfl, rfl⟩

/-- Witness for C8 at the concrete media type used by
`test_unsupported_media_type`. -/
theorem create_wrong_media_type_witness :
    (AccountService.create { accounts := [], nextId := 1 } "2024-01-01" "test/html"
        AccountService.emptyWire).1.status_code = 415 ∧
    (AccountService.create { accounts := [], nextId := 1 } "2024-01-01" "test/html"
        AccountService.emptyWire).1.body = AccountService.Body.envelope
      { status := 415, error := "Unsupported media type",
        message := "Content-Type must be application/json" } ∧
    (AccountService.create { accounts := [], nextId := 1 } "2024-01-01" "test/html"
        AccountService.emptyWire).2 = { accounts := [], nextId := 1 } :=
  create_wrong_media_type { accounts := [], nextId := 1 } "2024-01-01" "test/html"
    AccountService.emptyWire (by decide)

/-- C9: whatever headers a response already carries — hence for every
request path and outcome, success or error — the Security Middleware
leaves all four fixed security headers present with exactly their
specified values. -/
theorem security_headers_on_every_response (hs : List (String × String)) :
    (AccountService.applySecurityHeaders hs).lookup "X-Frame-Options"
        = some "SAMEORIGIN" ∧
    (AccountService.applySecurityHeaders hs).lookup "X-Content-Type-Options"
        = some "nosniff" ∧
    (AccountService.applySecurityHeaders hs).lookup "Content-Security-Policy"
        = some "default-src \x27self\x27; object-src \x27none\x27" ∧
    (AccountService.applySecurityHeaders hs).lookup "Referrer-Policy"
        = some "strict-origin-when-cross-origin" :=
  ⟨rfl, rfl, rfl, rfl⟩

/-- C1: a valid creation payload POSTed with content type
application/json is answered with 201; the body carries the submitted
name, email, address, phone_number and date_joined unchanged plus the
server-assigned identifier; the Location header is the read endpoint
for that identifier; and a GET of that identifier on the post-create
store returns 200 with the same representation. -/
theorem create_then_read_roundtrip (s : AccountService.Store)
    (today n em ad ph d : String) (w : AccountService.WireData)
    (hname : w.name = some n) (hemail : w.email = some em)
    (haddr : w.address = some ad) (hphone : w.phone_number = some ph)
    (hdj : w.date_joined = some d)
    (hfresh : ∀ a ∈ s.accounts, a.id ≠ s.nextId) :
    (AccountService.create s today "application/json" w).1.status_code = 201 ∧
    ∃ acc : AccountService.Account,
      (AccountService.create s today "application/json" w).1.body
          = AccountService.Body.account acc ∧
      acc.name = n ∧ acc.email = em ∧ acc.address = ad ∧
      acc.phone_number = ph ∧ acc.date_joined = d ∧ acc.id = s.nextId ∧
      (AccountService.create s today "application/json" w).1.location
          = some (AccountService.accountLocation acc.id) ∧
      AccountService.read (AccountService.create s today "application/json" w).2 acc.id
        = { status_code := 200, body := AccountService.Body.account acc,
            location := none } := by
  have hde : AccountService.deserialize w = Except.ok
      { name := n, email := em, address := ad, phone_number := ph,
        date_joined := some d } := by
    unfold AccountService.deserialize
    rw [hname, hemail, haddr, hphone, hdj]
  have hcr : AccountService.create s today "application/json" w =
      ({ status_code := 201,
         body := AccountService.Body.account
           { id := s.nextId, name := n, email := em, address := ad,
             phone_number := ph, date_joined := d },
         location := some (AccountService.accountLocation s.nextId) },
       { accounts := s.accounts ++
           [{ id := s.nextId, name := n, email := em, address := ad,
              phone_number := ph, date_joined := d }],
         nextId := s.nextId + 1 }) := by
    unfold AccountService.create
    rw [if_pos rfl, hde]
    rfl
  have hfind : ((AccountService.create s today "application/json" w).2).find s.nextId
      = some { id := s.nextId, name := n, email := em, address := ad,
               phone_number := ph, date_joined := d } := by
    rw [hcr]
    exact find_append_fresh s.accounts
      { id := s.nextId, name := n, email := em, address := ad,
        phone_number := ph, date_joined := d } (fun a ha => hfresh a ha)
  have hread : AccountService.read
      (AccountService.create s today "application/json" w).2 s.nextId
      = { status_code := 200,
          body := AccountService.Body.account
            { id := s.nextId, name := n, email := em, address := ad,
              phone_number := ph, date_joined := d },
          location := none } := by
    unfold AccountService.read
    rw [hfind]
  exact ⟨by rw [hcr],
    { id := s.nextId, name := n, email := em, address := ad,
      phone_number := ph, date_joined := d },
    by rw [hcr], rfl, rfl, rfl, rfl, rfl, rfl, by rw [hcr], hread⟩

/-- Witness for C1, at the payload of the spec's concrete scenario
(§8) and the empty store. -/
theorem create_then_read_roundtrip_witness :
    (AccountService.create { accounts := [], nextId := 1 } "2024-01-01"
        "application/json"
        { name := some "Jo", email := some "jo@x.com", address := some "1 Main St",
          phone_number := some "555-0100",
          date_joined := some "2023-05-06" }).1.status_code = 201 ∧
    ∃ acc : AccountService.Account,
      (AccountService.create { accounts := [], nextId := 1 } "2024-01-01"
          "application/json"
          { name := some "Jo", email := some "jo@x.com", address := some "1 Main St",
            phone_number := some "555-0100",
            date_joined := some "2023-05-06" }).1.body
          = AccountService.Body.account acc ∧
      acc.name = "Jo" ∧ acc.email = "jo@x.com" ∧ acc.address = "1 Main St" ∧
      acc.phone_number = "555-0100" ∧ acc.date_joined = "2023-05-06" ∧ acc.id = 1 ∧
      (AccountService.create { accounts := [], nextId := 1 } "2024-01-01"
          "application/json"
          { name := some "Jo", email := some "jo@x.com", address := some "1 Main St",
            phone_number := some "555-0100",
            date_joined := some "2023-05-06" }).1.location
          = some (AccountService.accountLocation acc.id) ∧
      AccountService.read (AccountService.create { accounts := [], nextId := 1 }
          "2024-01-01" "application/json"
          { name := some "Jo", email := some "jo@x.com", address := some "1 Main St",
            phone_number := some "555-0100",
            date_joined := some "2023-05-06" }).2 acc.id
        = { status_code := 200, body := AccountService.Body.account acc,
            location := none } :=
  create_then_read_roundtrip { accounts := [], nextId := 1 } "2024-01-01"
    "Jo" "jo@x.com" "1 Main St" "555-0100" "2023-05-06"
    { name := some "Jo", email := some "jo@x.com", address := some "1 Main St",
      phone_number := some "555-0100", date_joined := some "2023-05-06" }
    rfl rfl rfl rfl rfl (by simp)

/-- C5: a PUT update of an existing Account answers 200 with a
representation whose identifier and date_joined are unchanged while
name, email, address and phone_number are overwritten wholesale from
the request body, and the stored row agrees; partial updates are not
supported (deserialization demands every required field), and the empty
update body is a validation failure answered with 400, leaving the
store unchanged. -/
theorem update_replaces_fields_preserves_id_date (s : AccountService.Store)
    (aid : Nat) (a : AccountService.Account) (n em ad ph : String)
    (w : AccountService.WireData)
    (hfind : s.find aid = some a)
    (hname : w.name = some n) (hemail : w.email = some em)
    (haddr : w.address = some ad) (hphone : w.phone_number = some ph) :
    ((AccountService.update s aid w).1.status_code = 200 ∧
     ∃ a' : AccountService.Account,
       (AccountService.update s aid w).1.body = AccountService.Body.account a' ∧
       a'.id = a.id ∧ a'.date_joined = a.date_joined ∧
       a'.name = n ∧ a'.email = em ∧ a'.address = ad ∧ a'.phone_number = ph ∧
       (AccountService.update s aid w).2.find aid = some a' ∧
       (AccountService.update s aid w).2.nextId = s.nextId) ∧
    ((AccountService.update s aid AccountService.emptyWire).1.status_code = 400 ∧
     (AccountService.update s aid AccountService.emptyWire).2 = s) := by
  have hfindL : s.accounts.find? (fun b => b.id == aid) = some a := hfind
  have haid : a.id = aid := by
    have := List.find?_some hfindL
    simpa using this
  have hde : AccountService.deserialize w = Except.ok
      { name := n, email := em, address := ad, phone_number := ph,
        date_joined := w.date_joined } := by
    unfold AccountService.deserialize
    rw [hname, hemail, haddr, hphone]
  have hup : AccountService.update s aid w =
      ({ status_code := 200,
         body := AccountService.Body.account
           { a with name := n, email := em, address := ad, phone_number := ph },
         location := none },
       { s with accounts := s.accounts.map (fun b =>
           if b.id == aid
           then { a with name := n, email := em, address := ad, phone_number := ph }
           else b) }) := by
    unfold AccountService.update
    rw [hfind, hde]
  have hfind2 : (AccountService.update s aid w).2.find aid
      = some { a with name := n, email := em, address := ad, phone_number := ph } := by
    rw [hup]
    exact find_map_replace s.accounts aid a
      { a with name := n, email := em, address := ad, phone_number := ph }
      hfindL haid
  have hupe : AccountService.update s aid AccountService.emptyWire =
      (AccountService.errorResponse (AccountService.handle_data_validation_error
        "Invalid Account: missing required field"), s) := by
    unfold AccountService.update
    rw [hfind]
    rfl
  exact ⟨⟨by rw [hup],
    { a with name := n, email := em, address := ad, phone_number := ph },
    by rw [hup], rfl, rfl, rfl, rfl, rfl, rfl, hfind2, by rw [hup]⟩,
    by rw [hupe]; rfl, by rw [hupe]⟩

/-- Witness for C5 at the concrete account and update body of
`test_update_account` and `test_update_account_empty_data`. -/
theorem update_replaces_fields_witness :
    ((AccountService.update
        { accounts := [{ id := 1, name := "Jo", email := "jo@x.com",
                         address := "1 Main St", phone_number := "555-0100",
                         date_joined := "2023-05-06" }], nextId := 2 } 1
        { name := some "Updated Name", email := some "updated_email@example.com",
          address := some "Updated Address", phone_number := some "1234567890",
          date_joined := none }).1.status_code = 200 ∧
     ∃ a' : AccountService.Account,
       (AccountService.update
          { accounts := [{ id := 1, name := "Jo", email := "jo@x.com",
                           address := "1 Main St", phone_number := "555-0100",
                           date_joined := "2023-05-06" }], nextId := 2 } 1
          { name := some "Updated Name", email := some "updated_email@example.com",
            address := some "Updated Address", phone_number := some "1234567890",
            date_joined := none }).1.body = AccountService.Body.account a' ∧
       a'.id = 1 ∧ a'.date_joined = "2023-05-06" ∧
       a'.name = "Updated Name" ∧ a'.email = "updated_email@example.com" ∧
       a'.address = "Updated Address" ∧ a'.phone_number = "1234567890" ∧
       (AccountService.update
          { accounts := [{ id := 1, name := "Jo", email := "jo@x.com",
                           address := "1 Main St", phone_number := "555-0100",
                           date_joined := "2023-05-06" }], nextId := 2 } 1
          { name := some "Updated Name", email := some "updated_email@example.com",
            address := some "Updated Address", phone_number := some "1234567890",
            date_joined := none }).2.find 1 = some a' ∧
       (AccountService.update
          { accounts := [{ id := 1, name := "Jo", email := "jo@x.com",
                           address := "1 Main St", phone_number := "555-0100",
                           date_joined := "2023-05-06" }], nextId := 2 } 1
          { name := some "Updated Name", email := some "updated_email@example.com",
            address := some "Updated Address", phone_number := some "1234567890",
            date_joined := none }).2.nextId = 2) ∧
    ((AccountService.update
        { accounts := [{ id := 1, name := "Jo", email := "jo@x.com",
                         address := "1 Main St", phone_number := "555-0100",
                         date_joined := "2023-05-06" }], nextId := 2 } 1
        AccountService.emptyWire).1.status_code = 400 ∧
     (AccountService.update
        { accounts := [{ id := 1, name := "Jo", email := "jo@x.com",
                         address := "1 Main St", phone_number := "555-0100",
                         date_joined := "2023-05-06" }], nextId := 2 } 1
        AccountService.emptyWire).2
       = { accounts := [{ id := 1, name := "Jo", email := "jo@x.com",
                          address := "1 Main St", phone_number := "555-0100",
                          date_joined := "2023-05-06" }], nextId := 2 }) :=
  update_replaces_fields_preserves_id_date
    { accounts := [{ id := 1, name := "Jo", email := "jo@x.com",
                     address := "1 Main St", phone_number := "555-0100",
                     date_joined := "2023-05-06" }], nextId := 2 } 1
    { id := 1, name := "Jo", email := "jo@x.com", address := "1 Main St",
      phone_number := "555-0100", date_joined := "2023-05-06" }
    "Updated Name" "updated_email@example.com" "Updated Address" "1234567890"
    { name := some "Updated Name", email := some "updated_email@example.com",
      address := some "Updated Address", phone_number := some "1234567890",
      date_joined := none }
    rfl rfl rfl rfl rfl

/-- C6 counterexample: an update whose body misses required fields but
whose identifier names no existing Account is answered 404, not 400 —
not-found takes precedence over body validation (spec §4.2) — so the
claim that every such request is answered 400 fails at this input. -/
theorem missing_field_update_absent_404 :
    (AccountService.update { accounts := [], nextId := 1 } 1
        { name := some "not enough data", email := none, address := none,
          phone_number := none, date_joined := none }).1.status_code = 404 ∧
    (404 : Nat) ≠ 400 :=
  ⟨rfl, by decide⟩

/-- C6 amended: a creation or update body missing any required field is
never written, in full or in part: create (with JSON content type) is
answered 400 and leaves the store unchanged; update leaves the store
unchanged and is answered 400 when the identifier exists and 404 when
it does not. -/
theorem missing_required_field_no_write (s : AccountService.Store)
    (today : String) (aid : Nat) (w : AccountService.WireData)
    (hmiss : w.name = none ∨ w.email = none ∨ w.address = none ∨
      w.phone_number = none) :
    (AccountService.create s today "application/json" w).1.status_code = 400 ∧
    (AccountService.create s today "application/json" w).2 = s ∧
    (AccountService.update s aid w).2 = s ∧
    (∀ a, s.find aid = some a →
      (AccountService.update s aid w).1.status_code = 400) ∧
    (s.find aid = none → (AccountService.update s aid w).1.status_code = 404) := by
  have hde : AccountService.deserialize w
      = Except.error "Invalid Account: missing required field" := by
    obtain ⟨wn, we, wa, wp, wd⟩ := w
    rcases wn with _ | vn <;> rcases we with _ | ve <;> rcases wa with _ | va <;>
      rcases wp with _ | vp <;> simp_all [AccountService.deserialize]
  refine ⟨?_, ?_, ?_, ?_, ?_⟩
  · unfold AccountService.create
    rw [if_pos rfl, hde]
    rfl
  · unfold AccountService.create
    rw [if_pos rfl, hde]
  · rcases hf : s.find aid with _ | a
    · unfold AccountService.update
      rw [hf]
    · unfold AccountService.update
      rw [hf, hde]
  · intro a hfa
    unfold AccountService.update
    rw [hfa, hde]
    rfl
  · intro hfa
    unfold AccountService.update
    rw [hfa]
    rfl

/-- Witness for C6 at the body of `test_bad_request` (only a name) and
a store holding one Account. -/
theorem missing_required_field_no_write_witness :
    (AccountService.create
        { accounts := [{ id := 1, name := "Jo", email := "jo@x.com",
                         address := "1 Main St", phone_number := "555-0100",
                         date_joined := "2023-05-06" }], nextId := 2 }
        "2024-01-01" "application/json"
        { name := some "not enough data", email := none, address := none,
          phone_number := none, date_joined := none }).1.status_code = 400 ∧
    (AccountService.create
        { accounts := [{ id := 1, name := "Jo", email := "jo@x.com",
                         address := "1 Main St", phone_number := "555-0100",
                         date_joined := "2023-05-06" }], nextId := 2 }
        "2024-01-01" "application/json"
        { name := some "not enough data", email := none, address := none,
          phone_number := none, date_joined := none }).2
      = { accounts := [{ id := 1, name := "Jo", email := "jo@x.com",
                         address := "1 Main St", phone_number := "555-0100",
                         date_joined := "2023-05-06" }], nextId := 2 } ∧
    (AccountService.update
        { accounts := [{ id := 1, name := "Jo", email := "jo@x.com",
                         address := "1 Main St", phone_number := "555-0100",
                         date_joined := "2023-05-06" }], nextId := 2 } 1
        { name := some "not enough data", email := none, address := none,
          phone_number := none, date_joined := none }).2
      = { accounts := [{ id := 1, name := "Jo", email := "jo@x.com",
                         address := "1 Main St", phone_number := "555-0100",
                         date_joined := "2023-05-06" }], nextId := 2 } ∧
    (∀ a, ({ accounts := [{ id := 1, name := "Jo", email := "jo@x.com",
                            address := "1 Main St", phone_number := "555-0100",
                            date_joined := "2023-05-06" }],
             nextId := 2 } : AccountService.Store).find 1 = some a →
      (AccountService.update
          { accounts := [{ id := 1, name := "Jo", email := "jo@x.com",
                           address := "1 Main St", phone_number := "555-0100",
                           date_joined := "2023-05-06" }], nextId := 2 } 1
          { name := some "not enough data", email := none, address := none,
            phone_number := none, date_joined := none }).1.status_code = 400) ∧
    (({ accounts := [{ id := 1, name := "Jo", email := "jo@x.com",
                       address := "1 Main St", phone_number := "555-0100",
                       date_joined := "2023-05-06" }],
        nextId := 2 } : AccountService.Store).find 1 = none →
      (AccountService.update
          { accounts := [{ id := 1, name := "Jo", email := "jo@x.com",
                           address := "1 Main St", phone_number := "555-0100",
                           date_joined := "2023-05-06" }], nextId := 2 } 1
          { name := some "not enough data", email := none, address := none,
            phone_number := none, date_joined := none }).1.status_code = 404) :=
  missing_required_field_no_write
    { accounts := [{ id := 1, name := "Jo", email := "jo@x.com",
                     address := "1 Main St", phone_number := "555-0100",
                     date_joined := "2023-05-06" }], nextId := 2 }
    "2024-01-01" 1
    { name := some "not enough data", email := none, address := none,
      phone_number := none, date_joined := none }
    (Or.inr (Or.inl rfl))

end AccountService
